/-
Verification of the configuration-resolution subsystem of isort
(src/isort/settings.py): a shallow embedding of the settings merger,
override applicator, config-file locator, version resolution and the
file-skip predicate, together with theorems settling the specification
claims about them.

Python values flowing through the settings mapping are modelled by the
`Value` sum type; Python exceptions by `Except PyErr`.  External
libraries used by the source (configparser/toml parsing, fnmatch, the
filesystem) are passed in as oracle parameters.  Functions of this
repository that are imported by settings.py but whose source files are
not part of the repository snapshot (utils.union / utils.difference,
the stdlibs module, wrap_modes.from_string) are modelled from the
specification and marked as such in their doc comments.
-/
import Mathlib

namespace Isort

/-- Python exceptions that the modelled code can raise. -/
inductive PyErr where
  | keyError
  | typeError
  | valueError
  | attributeError
  | unboundLocalError
deriving DecidableEq, Repr

/-- Model of the Python values stored in a settings mapping: strings,
integers, booleans, `None`, float("inf") (set by the editorconfig
max_line_length handling), lists and tuples of strings, an attribute
object obtained via `getattr` on a type (`vstrAttr` names the
attribute), and a wrap-mode enum member (index). -/
inductive Value where
  | vstr (s : String)
  | vint (n : Int)
  | vbool (b : Bool)
  | vnone
  | vinf
  | vlist (xs : List String)
  | vtup (xs : List String)
  | vstrAttr (name : String)
  | vwrap (m : Nat)
deriving DecidableEq, Repr

/-- A Python dict from setting names to values, modelled as an
insertion-ordered association list with unique keys. -/
def Settings := List (String × Value)
deriving DecidableEq, Repr

/-- Dict lookup: first matching key. -/
def lookupS : Settings → String → Option Value
  | [], _ => none
  | (k, v) :: rest, key => if k = key then some v else lookupS rest key

/-- `dict.get(key, dflt)`. -/
def getD (s : Settings) (key : String) (dflt : Value) : Value :=
  (lookupS s key).getD dflt

/-- `dict[key]`: raises KeyError when absent. -/
def getItemE (s : Settings) (key : String) : Except PyErr Value :=
  match lookupS s key with
  | some v => Except.ok v
  | none => Except.error PyErr.keyError

/-- `dict[key] = value`: replace in place if present, else append
(Python dicts preserve insertion order). -/
def setKey : Settings → String → Value → Settings
  | [], key, v => [(key, v)]
  | (k, w) :: rest, key, v =>
      if k = key then (key, v) :: rest else (k, w) :: setKey rest key v

/-- `dict.pop(key, dflt)` on a raw-entries list: the popped value (or
`dflt`) together with the remaining entries. -/
def popEntry (entries : List (String × Value)) (key : String) (dflt : Value) :
    Value × List (String × Value) :=
  match lookupS entries key with
  | some v => (v, entries.filter (fun kv => !(kv.1 = key : Bool)))
  | none => (dflt, entries)

/-! ### String primitives
Structurally recursive models of the Python string operations the
source uses (Lean's own String.replace and friends are compiled
externals whose Lean definitions use well-founded recursion, which the
kernel cannot evaluate, so concrete instances could not be checked
through them). -/

/-- One fuel-bounded step list of Python `str.replace` on character
lists; the fuel is at least the input length plus one, and each step
consumes at least one character, so the bound is never hit for a
non-empty pattern. -/
def replaceFuel (pat rep : List Char) : Nat → List Char → List Char
  | 0, cs => cs
  | _ + 1, [] => []
  | fuel + 1, c :: rest =>
      if pat.isPrefixOf (c :: rest) then
        rep ++ replaceFuel pat rep fuel ((c :: rest).drop pat.length)
      else c :: replaceFuel pat rep fuel rest

/-- Python `s.replace(pat, rep)` for a non-empty pattern. -/
def pyReplace (s pat rep : String) : String :=
  String.mk (replaceFuel pat.toList rep.toList (s.toList.length + 1) s.toList)

/-- Python `s.split(sep)` for a single-character separator (empty parts
preserved, the empty string yielding one empty part). -/
def splitOnChar (sep : Char) : List Char → List (List Char)
  | [] => [[]]
  | c :: rest =>
      if c = sep then [] :: splitOnChar sep rest
      else
        match splitOnChar sep rest with
        | g :: gs => (c :: g) :: gs
        | [] => [[c]]

def pySplitOn (s : String) (sep : Char) : List String :=
  (splitOnChar sep s.toList).map String.mk

/-- Python `str.lower` (ASCII, which is all the source compares). -/
def pyToLower (s : String) : String := String.mk (s.toList.map Char.toLower)

def pyStartsWith (s pat : String) : Bool := pat.toList.isPrefixOf s.toList

def pyEndsWith (s pat : String) : Bool :=
  pat.toList.reverse.isPrefixOf s.toList.reverse

def pyIntercalate (sep : String) (parts : List String) : String :=
  String.mk (List.intercalate sep.toList (parts.map String.toList))

/-- Characters Python's `str.strip()` removes. -/
def pyWhitespace : List Char := [' ', '\t', '\n', '\r', '\x0b', '\x0c']

/-- `str.strip(chars)`: drop the given characters from both ends. -/
def pyStripChars (chars : List Char) (s : String) : String :=
  let l := s.toList.dropWhile (fun c => chars.contains c)
  String.mk ((l.reverse.dropWhile (fun c => chars.contains c)).reverse)

/-- `str.strip()` with no arguments. -/
def pyStrip (s : String) : String := pyStripChars pyWhitespace s

/-- The apostrophe character, used by the quote-stripping in
prepare_config. -/
def squoteChar : Char := Char.ofNat 39

/-- `s * n` for strings with a possibly negative count. -/
def strRepeat (s : String) (n : Int) : String :=
  if n ≤ 0 then "" else String.join (List.replicate n.toNat s)

def digitVal (c : Char) : Nat := c.toNat - ('0').toNat

/-- Digits of an integer literal after the first digit: Python allows
single underscores between digits. -/
def pyIntGo (acc : Nat) : List Char → Option Nat
  | [] => some acc
  | '_' :: c :: rest =>
      if c.isDigit then pyIntGo (acc * 10 + digitVal c) rest else none
  | c :: rest =>
      if c.isDigit then pyIntGo (acc * 10 + digitVal c) rest else none

def pyIntDigits : List Char → Option Nat
  | [] => none
  | c :: rest => if c.isDigit then pyIntGo (digitVal c) rest else none

/-- Python `int(s)` on a decimal string: surrounding whitespace is
stripped, an optional sign, then digits (underscores permitted between
digits).  `none` models the ValueError raised otherwise. -/
def pyIntOfString (s : String) : Option Int :=
  match (pyStrip s).toList with
  | '+' :: rest => (pyIntDigits rest).map Int.ofNat
  | '-' :: rest => (pyIntDigits rest).map (fun n => -(Int.ofNat n))
  | rest => (pyIntDigits rest).map Int.ofNat

/-- Python `int(value)` on an arbitrary value. -/
def pyIntOf : Value → Except PyErr Int
  | Value.vstr s =>
      match pyIntOfString s with
      | some n => Except.ok n
      | none => Except.error PyErr.valueError
  | Value.vint n => Except.ok n
  | Value.vbool b => Except.ok (if b then 1 else 0)
  | _ => Except.error PyErr.typeError

/-- Python `str(value)`. -/
def pyStr : Value → String
  | Value.vstr s => s
  | Value.vint n => toString n
  | Value.vbool b => if b then "True" else "False"
  | Value.vnone => "None"
  | Value.vinf => "inf"
  | Value.vlist xs =>
      "[" ++ pyIntercalate ", "
        (xs.map (fun x => String.mk [squoteChar] ++ x ++ String.mk [squoteChar])) ++ "]"
  | Value.vtup xs =>
      "(" ++ pyIntercalate ", "
        (xs.map (fun x => String.mk [squoteChar] ++ x ++ String.mk [squoteChar])) ++ ")"
  | Value.vstrAttr n => "<attribute " ++ n ++ ">"
  | Value.vwrap m => "WrapModes(" ++ toString m ++ ")"

/-- Python truthiness of a value. -/
def pyTruthy : Value → Bool
  | Value.vstr s => s ≠ ""
  | Value.vint n => n ≠ 0
  | Value.vbool b => b
  | Value.vnone => false
  | Value.vinf => true
  | Value.vlist xs => !xs.isEmpty
  | Value.vtup xs => !xs.isEmpty
  | Value.vstrAttr _ => true
  | Value.vwrap _ => true

/-- distutils.util.strtobool: recognized truthy/falsy tokens, ValueError
otherwise. -/
def pyStrtobool (s : String) : Except PyErr Int :=
  let v := pyToLower s
  if ["y", "yes", "t", "true", "on", "1"].contains v then Except.ok 1
  else if ["n", "no", "f", "false", "off", "0"].contains v then Except.ok 0
  else Except.error PyErr.valueError

/-- Iterating a Python value (used by set.union/set.difference on an
override value): lists and tuples yield their elements, a string yields
its characters, anything else raises TypeError. -/
def pyIterate : Value → Except PyErr (List String)
  | Value.vlist xs => Except.ok xs
  | Value.vtup xs => Except.ok xs
  | Value.vstr s => Except.ok (s.toList.map (fun c => String.mk [c]))
  | _ => Except.error PyErr.typeError

/-- Python `set(value)`: the deduplicated elements (iteration order of
a Python set is unspecified; this model fixes first-occurrence order,
and all theorems about set-valued results are stated by membership). -/
def pySetOf : Value → Except PyErr (List String)
  | Value.vlist xs => Except.ok xs.dedup
  | Value.vtup xs => Except.ok xs.dedup
  | Value.vstr s => Except.ok ((s.toList.map (fun c => String.mk [c])).dedup)
  | _ => Except.error PyErr.typeError

/-- Modelled from the spec: utils.union (the utils module is not part
of the repository snapshot; per spec section 8 it is the mathematical
union with no duplicates, order irrelevant).  Also models Python's
`list(set(a).union(b))`. -/
def setUnion (a b : List String) : List String := (a ++ b).dedup

/-- Modelled from the spec: utils.difference (set difference; also
models Python's `list(set(a).difference(b))`). -/
def setDifference (a b : List String) : List String :=
  a.filter (fun x => !(decide (x ∈ b)))

/-- _as_list: a list value has each element stripped; a string value
has newlines replaced by commas, is split on commas, and the stripped
non-empty items are kept.  Any other value raises (value.replace on a
non-string). -/
def asList : Value → Except PyErr (List String)
  | Value.vlist xs => Except.ok (xs.map pyStrip)
  | Value.vstr s =>
      Except.ok ((pySplitOn (pyReplace s "\n" ",") ',').map pyStrip |>.filter (fun t => t ≠ ""))
  | _ => Except.error PyErr.attributeError

/-! ## POSIX path primitives (os.path / posixpath on a POSIX system) -/

/-- posixpath.split: cut at the final slash; the head keeps a run of
leading slashes but loses other trailing slashes. -/
def posixSplitStr (p : String) : String × String :=
  let rcs := p.toList.reverse
  let tailRev := rcs.takeWhile (fun c => c ≠ '/')
  let headRev := rcs.drop tailRev.length
  let head :=
    if headRev ≠ [] ∧ headRev.any (fun c => c ≠ '/') then
      (headRev.dropWhile (fun c => c = '/')).reverse
    else headRev.reverse
  (String.mk head, String.mk tailRev.reverse)

def posixDirname (p : String) : String := (posixSplitStr p).1

def posixBasename (p : String) : String := (posixSplitStr p).2

/-- posixpath.join for two components. -/
def posixJoin (a b : String) : String :=
  if pyStartsWith b "/" then b
  else if a = "" ∨ pyEndsWith a "/" then a ++ b
  else a ++ "/" ++ b

/-- posixpath.expanduser with a known home directory: a `~user` form
for an unknown user is returned unchanged, like CPython does. -/
def expanduser (home p : String) : String :=
  if ¬ pyStartsWith p "~" then p
  else if p = "~" then (if pyStripChars ['/'] home = "" ∧ home ≠ "" then home else stripTrailingSlashes home)
  else if pyStartsWith p "~/" then stripTrailingSlashes home ++ String.mk (p.toList.drop 1)
  else p
where
  stripTrailingSlashes (s : String) : String :=
    String.mk ((s.toList.reverse.dropWhile (fun c => c = '/')).reverse)

/-- posixpath.normpath. -/
def posixNormpath (p : String) : String :=
  if p = "" then "."
  else
    let initialSlashes : Nat :=
      if pyStartsWith p "/" then
        (if pyStartsWith p "//" ∧ ¬ pyStartsWith p "///" then 2 else 1)
      else 0
    let comps := pySplitOn p '/'
    let newComps := comps.foldl
      (fun acc comp =>
        if comp = "" ∨ comp = "." then acc
        else if comp ≠ ".." ∨ (initialSlashes = 0 ∧ acc = []) ∨ (acc ≠ [] ∧ acc.getLast? = some "..")
        then acc ++ [comp]
        else acc.dropLast)
      []
    let joined := String.mk (List.replicate initialSlashes '/') ++ pyIntercalate "/" newComps
    if joined = "" then "." else joined

/-- posixpath.abspath against an explicit process working directory. -/
def posixAbspath (cwd p : String) : String :=
  if pyStartsWith p "/" then posixNormpath p else posixNormpath (posixJoin cwd p)

/-! ## The default table and version data -/

/-- DEFAULT_SECTIONS. -/
def DEFAULT_SECTIONS : List String :=
  ["FUTURE", "STDLIB", "THIRDPARTY", "FIRSTPARTY", "LOCALFOLDER"]

/-- MAX_CONFIG_SEARCH_DEPTH. -/
def MAX_CONFIG_SEARCH_DEPTH : Nat := 25

/-- The module-level `default` dictionary of settings.py, entry for
entry in source order.  (Named defaultTable here because `default` is
taken by core Lean.) -/
def defaultTable : Settings :=
  [ ("force_to_top", Value.vlist []),
    ("skip", Value.vlist []),
    ("skip_glob", Value.vlist []),
    ("line_length", Value.vint 79),
    ("wrap_length", Value.vint 0),
    ("line_ending", Value.vnone),
    ("sections", Value.vtup DEFAULT_SECTIONS),
    ("no_sections", Value.vbool false),
    ("known_future_library", Value.vlist ["__future__"]),
    ("known_third_party", Value.vlist ["google.appengine.api"]),
    ("known_first_party", Value.vlist []),
    ("multi_line_output", Value.vwrap 0),
    ("forced_separate", Value.vlist []),
    ("indent", Value.vstr "    "),
    ("comment_prefix", Value.vstr "  #"),
    ("length_sort", Value.vbool false),
    ("add_imports", Value.vlist []),
    ("remove_imports", Value.vlist []),
    ("reverse_relative", Value.vbool false),
    ("force_single_line", Value.vbool false),
    ("default_section", Value.vstr "FIRSTPARTY"),
    ("import_heading_future", Value.vstr ""),
    ("import_heading_stdlib", Value.vstr ""),
    ("import_heading_thirdparty", Value.vstr ""),
    ("import_heading_firstparty", Value.vstr ""),
    ("import_heading_localfolder", Value.vstr ""),
    ("balanced_wrapping", Value.vbool false),
    ("use_parentheses", Value.vbool false),
    ("order_by_type", Value.vbool true),
    ("atomic", Value.vbool false),
    ("lines_after_imports", Value.vint (-1)),
    ("lines_between_sections", Value.vint 1),
    ("lines_between_types", Value.vint 0),
    ("combine_as_imports", Value.vbool false),
    ("combine_star", Value.vbool false),
    ("keep_direct_and_as_imports", Value.vbool false),
    ("include_trailing_comma", Value.vbool false),
    ("from_first", Value.vbool false),
    ("verbose", Value.vbool false),
    ("quiet", Value.vbool false),
    ("force_adds", Value.vbool false),
    ("force_alphabetical_sort_within_sections", Value.vbool false),
    ("force_alphabetical_sort", Value.vbool false),
    ("force_grid_wrap", Value.vint 0),
    ("force_sort_within_sections", Value.vbool false),
    ("show_diff", Value.vbool false),
    ("ignore_whitespace", Value.vbool false),
    ("no_lines_before", Value.vlist []),
    ("no_inline_sort", Value.vbool false),
    ("ignore_comments", Value.vbool false),
    ("safety_excludes", Value.vbool true),
    ("case_sensitive", Value.vbool false) ]

/-- Modelled from the spec: the valid python-version targets.  The
source derives them as `dir(stdlibs)` with the `py` marker stripped and
underscore names dropped, but the stdlibs module is not part of the
repository snapshot; the spec names "auto", "all", "2", "3" and
concrete major.minor selectors as the supported shapes. -/
def VALID_PY_TARGETS : List String :=
  ["all", "2", "27", "3", "35", "36", "37", "38"]

/-- Modelled from the spec: a representative python-2 standard-library
name set (the stdlibs module data is not in the snapshot). -/
def stdlib2 : List String := ["os", "sys", "re", "urllib2", "ConfigParser"]

/-- Modelled from the spec: a representative python-3 standard-library
name set. -/
def stdlib3 : List String := ["os", "sys", "re", "pathlib", "configparser", "typing"]

/-- Modelled from the spec: `getattr(stdlibs, name).stdlib` for the
resolved standard-library identifier ("all" is the union of the
python-2 and python-3 sets). -/
def stdlibOf : String → List String
  | "py2" => stdlib2
  | "py27" => stdlib2
  | "py3" => stdlib3
  | "py35" => stdlib3
  | "py36" => stdlib3
  | "py37" => stdlib3
  | "py38" => stdlib3
  | "all" => setUnion stdlib2 stdlib3
  | _ => []

/-- Modelled from the spec: attribute lookup `getattr(stdlibs, name)`
on the stdlibs module, whose attribute names are "all" and the
`py`-marked version names; any other name raises AttributeError
(returned as `none`). -/
def stdlibAttr (name : String) : Option (List String) :=
  if name = "all" ∨ ["py2", "py27", "py3", "py35", "py36", "py37", "py38"].contains name then
    some (stdlibOf (if name = "all" then "all" else name))
  else none

/-! ## Type-directed coercion (_get_str_to_type_converter) -/

/-- The declared type of a setting, read off the type of its default
value; `wrapT` stands for the wrap_mode_from_string converter the
source substitutes for the WrapModes type. -/
inductive TypeTag where
  | strT
  | intT
  | boolT
  | listT
  | tupleT
  | noneT
  | wrapT
deriving DecidableEq, Repr

/-- _get_str_to_type_converter: `type(default.get(setting_name, ""))`,
with the WrapModes type replaced by wrap_mode_from_string. -/
def strToTypeConverter (settingName : String) : TypeTag :=
  match lookupS defaultTable settingName with
  | some (Value.vlist _) => TypeTag.listT
  | some (Value.vtup _) => TypeTag.tupleT
  | some (Value.vint _) => TypeTag.intT
  | some (Value.vbool _) => TypeTag.boolT
  | some (Value.vstr _) => TypeTag.strT
  | some Value.vnone => TypeTag.noneT
  | some (Value.vwrap _) => TypeTag.wrapT
  | some _ => TypeTag.strT
  | none => TypeTag.strT

/-- A model of the attribute namespace of Python's built-in str type:
`getattr(str, name)` succeeds exactly for these names. -/
def strAttributeNames : List String :=
  ["title", "strip", "upper", "lower", "capitalize", "center", "count",
   "encode", "endswith", "expandtabs", "find", "format", "index", "join",
   "ljust", "lstrip", "partition", "replace", "rfind", "rindex", "rjust",
   "rsplit", "rstrip", "split", "splitlines", "startswith", "swapcase",
   "translate", "zfill"]

/-- A model of the attribute namespace of Python's built-in int type. -/
def intAttributeNames : List String :=
  ["real", "imag", "numerator", "denominator", "bit_length", "conjugate",
   "to_bytes", "from_bytes"]

/-- A model of the attribute namespace of NoneType. -/
def noneTypeAttributeNames : List String := ["__class__", "__doc__"]

/-- A model of the attribute namespace of a Python function object
(wrap_mode_from_string is a plain function). -/
def funcAttributeNames : List String := ["__name__", "__doc__", "__module__", "__call__"]

/-- Modelled from the spec: the wrap-mode member names of the WrapModes
enumeration consumed by the dedicated string-to-enum lookup (the
wrap_modes module is not part of the repository snapshot). -/
def wrapModeNames : List String :=
  ["GRID", "VERTICAL", "HANGING_INDENT", "VERTICAL_HANGING_INDENT",
   "VERTICAL_GRID", "VERTICAL_GRID_GROUPED", "VERTICAL_GRID_GROUPED_NO_COMMA",
   "NOQA"]

/-- Modelled from the spec: wrap_modes.from_string, the dedicated
string-to-enum lookup — a member name resolves to that member, anything
else is coerced through the enum's integer constructor. -/
def wrapModeFromString (value : Value) : Except PyErr Nat :=
  match wrapModeNames.indexOf? (pyStr value) with
  | some i => Except.ok i
  | none =>
      match pyIntOf value with
      | Except.ok n =>
          if 0 ≤ n ∧ n < Int.ofNat wrapModeNames.length then Except.ok n.toNat
          else Except.error PyErr.valueError
      | Except.error e => Except.error e

/-- `os.path.sep`-relative absolutization (_abspaths): a value that does
not start with the path separator but ends with one is joined onto the
config file's directory; anything else is left unchanged. -/
def abspaths (cwd : String) (values : List String) : List String :=
  values.map (fun v =>
    if ¬ pyStartsWith v "/" ∧ pyEndsWith v "/" then posixJoin cwd v else v)

/-! ## The settings merger (_update_with_config_file, lines 349-383) -/

/-- The final, type-directed branch of the merge loop:
`getattr(existing_value_type, str(value), None) or existing_value_type(value)`. -/
def mergeOther (t : TypeTag) (access : String) (settings : Settings) (value : Value) :
    Except PyErr Settings :=
  let sval := pyStr value
  match t with
  | TypeTag.strT =>
      Except.ok (setKey settings access
        (if strAttributeNames.contains sval then Value.vstrAttr sval else Value.vstr sval))
  | TypeTag.intT =>
      if intAttributeNames.contains sval then
        Except.ok (setKey settings access (Value.vstrAttr sval))
      else do
        let n ← pyIntOf value
        Except.ok (setKey settings access (Value.vint n))
  | TypeTag.noneT =>
      if noneTypeAttributeNames.contains sval then
        Except.ok (setKey settings access (Value.vstrAttr sval))
      else Except.error PyErr.typeError
  | TypeTag.wrapT =>
      if funcAttributeNames.contains sval then
        Except.ok (setKey settings access (Value.vstrAttr sval))
      else do
        let m ← wrapModeFromString value
        Except.ok (setKey settings access (Value.vwrap m))
  | _ => Except.error PyErr.typeError

/-- One iteration of the merge loop of _update_with_config_file over a
raw (key, value) pair from a config file, mutating the accumulating
settings: the `not_` marker is stripped and the key lowercased to get
the access key, the declared type drives the branch, and `sections` is
replaced wholesale while other list fields are combined through
utils.union / utils.difference. -/
def mergeConfigEntry (cwd : String) (settings : Settings) (key : String) (value : Value) :
    Except PyErr Settings :=
  let access := pyToLower (pyReplace key "not_" "")
  let t := strToTypeConverter access
  if t = TypeTag.listT ∨ t = TypeTag.tupleT then
    if access = "sections" then do
      let xs ← asList value
      Except.ok (setKey settings access (Value.vtup xs))
    else do
      let existing ← pySetOf (getD settings access (getD defaultTable access Value.vnone))
      if pyStartsWith key "not_" then do
        let xs ← asList value
        Except.ok (setKey settings access (Value.vlist (setDifference existing xs)))
      else if pyStartsWith key "known_" then do
        let xs ← asList value
        Except.ok (setKey settings access (Value.vlist (setUnion existing (abspaths cwd xs))))
      else do
        let xs ← asList value
        Except.ok (setKey settings access (Value.vlist (setUnion existing xs)))
  else if t = TypeTag.boolT then do
    let b ←
      match value with
      | Value.vbool b => Except.ok b
      | Value.vstr s => do
          let n ← pyStrtobool s
          Except.ok (n ≠ 0 : Bool)
      | _ => Except.error PyErr.attributeError
    Except.ok (setKey settings access (Value.vbool b))
  else if pyStartsWith key "known_" then do
    let xs ← asList value
    Except.ok (setKey settings access (Value.vlist (abspaths cwd xs)))
  else if key = "force_grid_wrap" then
    match pyIntOf value with
    | Except.ok n => Except.ok (setKey settings access (Value.vint n))
    | Except.error PyErr.valueError =>
        match value with
        | Value.vstr s =>
            Except.ok (setKey settings access
              (if pyStrip (pyToLower s) = "false" then getD defaultTable access Value.vnone
               else Value.vint 2))
        | _ => Except.error PyErr.attributeError
    | Except.error e => Except.error e
  else
    mergeOther t access settings value

/-- The merge loop folded over every raw entry of a config file. -/
def mergeConfigEntries (cwd : String) (settings : Settings)
    (entries : List (String × Value)) : Except PyErr Settings :=
  entries.foldlM (fun s kv => mergeConfigEntry cwd s kv.1 kv.2) settings

/-- `value.strip()` on a raw config value: defined for strings only. -/
def pyStripValue : Value → Except PyErr String
  | Value.vstr s => Except.ok (pyStrip s)
  | _ => Except.error PyErr.attributeError

/-- The width computation `size and int(size) or dflt` used by the
editorconfig indent handling. -/
def editorWidth (size : String) (dflt : Int) : Except PyErr Int :=
  if size ≠ "" then do
    let n ← pyIntOf (Value.vstr size)
    Except.ok (if n ≠ 0 then n else dflt)
  else Except.ok dflt

/-- The `.editorconfig`-only pre-pass of _update_with_config_file
(lines 332-347): indent_style / indent_size / tab_width combine into
`indent`, max_line_length sets `line_length` ("off" becomes infinity),
and the four keys are removed from the generic merge. -/
def editorConfigPass (settings : Settings) (entries : List (String × Value)) :
    Except PyErr (Settings × List (String × Value)) := do
  let (styleV, e1) := popEntry entries "indent_style" (Value.vstr "")
  let style ← pyStripValue styleV
  let (sizeV, e2) := popEntry e1 "indent_size" (Value.vstr "")
  let size0 ← pyStripValue sizeV
  let (size, e3) ←
    if size0 = "tab" then do
      let (twV, e3) := popEntry e2 "tab_width" (Value.vstr "")
      let tw ← pyStripValue twV
      Except.ok (tw, e3)
    else Except.ok (size0, e2)
  let s1 ←
    if style = "space" then do
      let w ← editorWidth size 4
      Except.ok (setKey settings "indent" (Value.vstr (strRepeat " " w)))
    else if style = "tab" then do
      let w ← editorWidth size 1
      Except.ok (setKey settings "indent" (Value.vstr (strRepeat "\t" w)))
    else Except.ok settings
  let (mllV, e4) := popEntry e3 "max_line_length" (Value.vstr "")
  let mll ← pyStripValue mllV
  let s2 ←
    if mll ≠ "" then
      if mll = "off" then Except.ok (setKey s1 "line_length" Value.vinf)
      else do
        let n ← pyIntOf (Value.vstr mll)
        Except.ok (setKey s1 "line_length" (Value.vint n))
    else Except.ok s1
  Except.ok (s2, e4)

/-- _update_with_config_file: read the raw settings of the file for the
requested config sections (the format readers — configparser / toml —
are the `readCfg` oracle), return unchanged when empty, run the
editorconfig pre-pass when the file is an `.editorconfig`, then fold
the merge loop over the remaining entries. -/
def updateWithConfigFile (readCfg : String → List String → List (String × Value))
    (filePath : String) (sections : List String) (settings : Settings) :
    Except PyErr Settings := do
  let cwd := posixDirname filePath
  let entries := readCfg filePath sections
  if entries.isEmpty then Except.ok settings
  else if pyEndsWith filePath ".editorconfig" then do
    let (s1, rest) ← editorConfigPass settings entries
    mergeConfigEntries cwd s1 rest
  else
    mergeConfigEntries cwd settings entries

/-! ## The config-file locator (_update_settings_with_config, lines 285-314) -/

/-- The fallback-path scan: the first existing fallback, after
user-home expansion, becomes the candidate. -/
def findFallback (pathExists : String → Bool) (home : String) :
    List String → Option String
  | [] => none
  | fb :: rest =>
      let e := expanduser home fb
      if pathExists e then some e else findFallback pathExists home rest

/-- The parent directory step of the walk: `os.path.split(d)[0]`. -/
def parentDir (d : String) : String := posixDirname d

/-- `parentDir` iterated. -/
def parentIter : Nat → String → String
  | 0, d => d
  | k + 1, d => parentIter k (parentDir d)

/-- The upward walk of _update_settings_with_config: at most `fuel`
directories are examined (the source bounds tries by
MAX_CONFIG_SEARCH_DEPTH), an empty current directory stops the loop,
and so does a directory that is its own parent. -/
def walkSearch (pathExists : String → Bool) (name : String) :
    Nat → String → Option String
  | 0, _ => none
  | fuel + 1, dir =>
      if dir = "" then none
      else
        let potential := posixJoin dir name
        if pathExists potential then some potential
        else
          let nd := parentDir dir
          if dir = nd then none
          else walkSearch pathExists name fuel nd

/-- The locator: a fallback candidate is found first, then the walk
from the start path replaces it whenever the walk finds the file. -/
def locate (pathExists : String → Bool) (home : String)
    (path name : String) (fallbacks : List String) : Option String :=
  let candidate := findFallback pathExists home fallbacks
  match walkSearch pathExists name MAX_CONFIG_SEARCH_DEPTH path with
  | some p => some p
  | none => candidate

/-- _update_settings_with_config: locate the file and, when one was
found and still exists, fold its contents into the settings; a missing
file leaves the accumulator untouched and raises nothing. -/
def updateSettingsWithConfig (pathExists : String → Bool)
    (readCfg : String → List String → List (String × Value)) (home : String)
    (path name : String) (fallbacks : List String) (sections : List String)
    (settings : Settings) : Except PyErr Settings :=
  match locate pathExists home path name fallbacks with
  | some f =>
      if f ≠ "" ∧ pathExists f then updateWithConfigFile readCfg f sections settings
      else Except.ok settings
  | none => Except.ok settings

/-! ## Version resolution and from_path (lines 65-86 and 226-245) -/

/-- The version-selector normalization of _get_default: a falsy
selector means "3", "auto" means the interpreter's own major.minor
string. -/
def resolvePyVersion (interp : String) (pv : Option Value) : Except PyErr String :=
  let v : Value := (pv.getD Value.vnone)
  let v := if pyTruthy v then v else Value.vstr "3"
  let v := if v = Value.vstr "auto" then Value.vstr interp else v
  match v with
  | Value.vstr s =>
      if VALID_PY_TARGETS.contains s then
        Except.ok (if s ≠ "all" then "py" ++ s else s)
      else Except.error PyErr.valueError
  | _ => Except.error PyErr.valueError

/-- _get_default: the default table with known_standard_library set to
the resolved standard-library name set. -/
def getDefault (interp : String) (pv : Option Value) : Except PyErr Settings := do
  let v ← resolvePyVersion interp pv
  Except.ok (setKey defaultTable "known_standard_library" (Value.vlist (stdlibOf v)))

/-- from_path: the defaults for the resolved version, then the five
config-file kinds folded in, in the fixed precedence order of the
source.  `appdirsCfg` models the optional appdirs user config path. -/
def fromPath (pathExists : String → Bool)
    (readCfg : String → List String → List (String × Value))
    (home : String) (appdirsCfg : Option String) (interp : String)
    (path : String) (pv : Option Value) : Except PyErr Settings := do
  let computed ← getDefault interp pv
  let isortDefaults :=
    match appdirsCfg with
    | some d => [d, "~/.isort.cfg"]
    | none => ["~/.isort.cfg"]
  let s1 ← updateSettingsWithConfig pathExists readCfg home path ".editorconfig"
    ["~/.editorconfig"] ["*", "*.py", "**.py"] computed
  let s2 ← updateSettingsWithConfig pathExists readCfg home path "pyproject.toml"
    [] ["tool.isort"] s1
  let s3 ← updateSettingsWithConfig pathExists readCfg home path ".isort.cfg"
    isortDefaults ["settings", "isort"] s2
  let s4 ← updateSettingsWithConfig pathExists readCfg home path "setup.cfg"
    [] ["isort", "tool:isort"] s3
  let s5 ← updateSettingsWithConfig pathExists readCfg home path "tox.ini"
    [] ["isort", "tool:isort"] s4
  Except.ok s5

/-- Association lookup in the memoization cache. -/
def cacheLookup : List ((String × Option Value) × Settings) →
    (String × Option Value) → Option Settings
  | [], _ => none
  | (k, v) :: rest, key => if k = key then some v else cacheLookup rest key

/-- The lru_cache memoization of from_path, keyed like the source on
the (path, py_version) argument pair; a raising call is not cached,
matching functools.lru_cache. -/
def fromPathCached (pathExists : String → Bool)
    (readCfg : String → List String → List (String × Value))
    (home : String) (appdirsCfg : Option String) (interp : String)
    (cache : List ((String × Option Value) × Settings))
    (path : String) (pv : Option Value) :
    Except PyErr Settings × List ((String × Option Value) × Settings) :=
  match cacheLookup cache (path, pv) with
  | some v => (Except.ok v, cache)
  | none =>
      match fromPath pathExists readCfg home appdirsCfg interp path pv with
      | Except.ok v => (Except.ok v, ((path, pv), v) :: cache)
      | Except.error e => (Except.error e, cache)

/-! ## The override applicator (prepare_config, lines 248-282) -/

/-- Is the stored value of list, tuple or set type
(`type(...) in (list, tuple, set)`)?  Stored values are never Python
sets in this code, so the two sequence variants suffice. -/
def isListTupleSet : Value → Bool
  | Value.vlist _ => true
  | Value.vtup _ => true
  | _ => false

/-- One iteration of the override loop of prepare_config: a `not_`
marker means set difference, other overrides of list-typed keys union,
and everything else — including the `sections` carve-out — is stored
directly under the original key. -/
def applyOverride (config : Settings) (key : String) (value : Value) :
    Except PyErr Settings :=
  let access := pyToLower (pyReplace key "not_" "")
  if access ≠ "sections" ∧ isListTupleSet (getD config access Value.vnone) then do
    let curV ← getItemE config access
    let cur ← pySetOf curV
    let vals ← pyIterate value
    if pyStartsWith key "not_" then
      Except.ok (setKey config access (Value.vlist (setDifference cur vals)))
    else
      Except.ok (setKey config access (Value.vlist (setUnion cur vals)))
  else
    Except.ok (setKey config key value)

/-- The indent post-processing at the end of prepare_config: a numeric
string becomes that many spaces; otherwise one layer of quotes is
stripped and the word "tab" becomes a tab character. -/
def indentPost (config : Settings) : Except PyErr Settings := do
  let iv ← getItemE config "indent"
  let ind := pyStr iv
  let ind :=
    if ind ≠ "" ∧ ind.toList.all Char.isDigit then
      strRepeat " " (Int.ofNat (ind.toList.foldl (fun acc c => acc * 10 + digitVal c) 0))
    else
      let stripped := pyStripChars ['"'] (pyStripChars [squoteChar] ind)
      if pyToLower stripped = "tab" then "\t" else stripped
  Except.ok (setKey config "indent" (Value.vstr ind))

/-- The comment-prefix post-processing at the end of prepare_config
(`config["comment_prefix"].strip("'").strip('"')`). -/
def commentPost (config : Settings) : Except PyErr Settings := do
  let cp ← getItemE config "comment_prefix"
  match cp with
  | Value.vstr s =>
      Except.ok (setKey config "comment_prefix"
        (Value.vstr (pyStripChars ['"'] (pyStripChars [squoteChar] s))))
  | _ => Except.error PyErr.attributeError

/-- prepare_config after the from_path call: the override loop, the
unconditional force_alphabetical_sort expansion applied after the loop,
and the indent / comment-prefix post-processing. -/
def prepareConfigWith (config : Settings) (overrides : List (String × Value)) :
    Except PyErr Settings := do
  let c1 ← overrides.foldlM (fun c kv => applyOverride c kv.1 kv.2) config
  let fav ← getItemE c1 "force_alphabetical_sort"
  let c2 :=
    if pyTruthy fav then
      setKey (setKey (setKey (setKey c1
        "force_alphabetical_sort_within_sections" (Value.vbool true))
        "no_sections" (Value.vbool true))
        "lines_between_types" (Value.vint 1))
        "from_first" (Value.vbool true)
    else c1
  let c3 ← indentPost c2
  commentPost c3

/-- `setting_overrides.pop("py_version", None)`. -/
def popKey (overrides : List (String × Value)) (key : String) :
    Option Value × List (String × Value) :=
  match lookupS overrides key with
  | some v => (some v, overrides.filter (fun kv => !(kv.1 = key : Bool)))
  | none => (none, overrides)

/-- prepare_config: pop the py_version override, resolve the file-based
configuration through from_path, then apply the remaining overrides. -/
def prepareConfig (pathExists : String → Bool)
    (readCfg : String → List String → List (String × Value))
    (home : String) (appdirsCfg : Option String) (interp : String)
    (settingsPath : String) (overrides : List (String × Value)) :
    Except PyErr Settings := do
  let (pv, ovs) := popKey overrides "py_version"
  let config ← fromPath pathExists readCfg home appdirsCfg interp settingsPath pv
  prepareConfigWith config ovs

/-! ## Config.__post_init__ (lines 150-166) -/

/-- Config.__post_init__, translated with Python's local-variable
scoping made explicit: the local `py_version` is assigned only inside
the `== "auto"` branch, and reading it unassigned raises
UnboundLocalError.  On the "auto" path the dataclass field is rebound
to the py-marked name while the local keeps the bare version, which is
then fed to the stdlibs attribute lookup.  The result is the final
(py_version field, known_standard_library) pair. -/
def configPostInit (interp : String) (pyVersionField : String)
    (knownStandardLibrary : List String) : Except PyErr (String × List String) :=
  let localPyVersion : Option String :=
    if pyVersionField = "auto" then some interp else none
  match localPyVersion with
  | none => Except.error PyErr.unboundLocalError
  | some v =>
      if ¬ VALID_PY_TARGETS.contains v then Except.error PyErr.valueError
      else
        let fieldValue := if v ≠ "all" then "py" ++ v else pyVersionField
        match stdlibAttr v with
        | none => Except.error PyErr.attributeError
        | some lib => Except.ok (fieldValue, setUnion lib knownStandardLibrary)

/-! ## The skip predicate (file_should_be_skipped, lines 443-475) -/

/-- Does a digit run followed by a slash start here (the `[0-9]+/` tail
of the versioned-lib alternative, with backtracking folded in)? -/
def slashAfterDigits : List Char → Bool
  | [] => false
  | c :: rest => if c = '/' then true else c.isDigit && slashAfterDigits rest

/-- Does the versioned-lib alternative `lib/python[0-9].[0-9]+/` of the
safety regex match at this position (the unescaped dot matches any
character)? -/
def startsVersionedLib : List Char → Bool
  | '/' :: 'l' :: 'i' :: 'b' :: '/' :: 'p' :: 'y' :: 't' :: 'h' :: 'o' :: 'n'
      :: d :: _ :: rest =>
      d.isDigit &&
        (match rest with
         | x :: more => x.isDigit && slashAfterDigits more
         | [] => false)
  | _ => false

/-- The fixed literal alternatives of safety_exclude_re, each delimited
by slashes. -/
def safetyLiterals : List String :=
  ["/.eggs/", "/.git/", "/.hg/", "/.mypy_cache/", "/.nox/", "/.tox/",
   "/.venv/", "/_build/", "/buck-out/", "/build/", "/dist/", "/.pants.d/",
   "/node_modules/"]

/-- Does any alternative of safety_exclude_re match at this position? -/
def safetyAtPos (cs : List Char) : Bool :=
  safetyLiterals.any (fun l => l.toList.isPrefixOf cs) || startsVersionedLib cs

/-- safety_exclude_re.search over every position of the string. -/
def safetySearchAux : List Char → Bool
  | [] => false
  | c :: rest => safetyAtPos (c :: rest) || safetySearchAux rest

/-- Whether safety_exclude_re.search finds a match in the string. -/
def safetySearch (s : String) : Bool := safetySearchAux s.toList

/-- The per-segment walk of the skip list: split the candidate name and
test each path component against the skip entries, from leaf to root.
The loop strictly shortens the string being split, so a fuel of
`length + 1` runs it to completion. -/
def segmentSkipAux (skip : List String) : Nat → String → Bool
  | 0, _ => false
  | fuel + 1, p =>
      let position := posixSplitStr p
      if position.2 = "" then false
      else if skip.contains position.2 then true
      else segmentSkipAux skip fuel position.1

def segmentSkip (skip : List String) (filename : String) : Bool :=
  segmentSkipAux skip (filename.length + 1) filename

/-- The skip-predicate configuration: the three settings the source
reads from the resolved configuration mapping. -/
structure SkipConfig where
  safety_excludes : Bool
  skip : List String
  skip_glob : List String
deriving DecidableEq, Repr

/-- file_should_be_skipped.  `fsEntry` is the
isfile-or-isdir-or-islink oracle, `fnmatchP pattern name` the
fnmatch.fnmatch oracle, and `cwd` the process working directory that
os.path.abspath resolves relative paths against. -/
def fileShouldBeSkipped (fsEntry : String → Bool) (fnmatchP : String → String → Bool)
    (cwd : String) (filename : String) (config : SkipConfig) (path : String) : Bool :=
  let osPath := posixJoin path filename
  let normalized0 := pyReplace osPath "\\" "/"
  let normalized :=
    match normalized0.toList with
    | _ :: c :: _ => if c = ':' then String.mk (normalized0.toList.drop 2) else normalized0
    | _ => normalized0
  let safetyHit :=
    if path ≠ "" ∧ config.safety_excludes then
      let checkExclude := "/" ++ pyReplace filename "\\" "/" ++ "/"
      let checkExclude :=
        if path ≠ "" ∧ posixBasename path = "lib" then
          "/" ++ posixBasename path ++ checkExclude
        else checkExclude
      safetySearch checkExclude
    else false
  if safetyHit then true
  else if config.skip.any (fun sp =>
      posixAbspath cwd normalized = posixAbspath cwd (pyReplace sp "\\" "/")) then true
  else if segmentSkip config.skip filename then true
  else if config.skip_glob.any (fun g =>
      fnmatchP filename g || fnmatchP ("/" ++ filename) g) then true
  else if ¬ fsEntry osPath then true
  else false

/-! ## Helper lemmas -/

theorem lookupS_setKey_self (s : Settings) (k : String) (v : Value) :
    lookupS (setKey s k v) k = some v := by
  induction s with
  | nil => simp [setKey, lookupS]
  | cons kv rest ih =>
      obtain ⟨k2, w⟩ := kv
      by_cases h : k2 = k
      · subst h
        simp [setKey, lookupS]
      · simp [setKey, lookupS, h, ih]

theorem lookupS_setKey_ne (s : Settings) (k k2 : String) (v : Value)
    (h : k2 ≠ k) : lookupS (setKey s k v) k2 = lookupS s k2 := by
  induction s with
  | nil => simp [setKey, lookupS, Ne.symm h]
  | cons kv rest ih =>
      obtain ⟨k3, w⟩ := kv
      by_cases h3 : k3 = k
      · subst h3
        simp [setKey, lookupS, Ne.symm h, h]
      · by_cases h4 : k3 = k2
        · subst h4
          simp [setKey, lookupS, h3]
        · simp [setKey, lookupS, h3, h4, ih]

theorem getD_setKey_self (s : Settings) (k : String) (v d : Value) :
    getD (setKey s k v) k d = v := by
  simp [getD, lookupS_setKey_self]

theorem getD_setKey_ne (s : Settings) (k k2 : String) (v d : Value)
    (h : k2 ≠ k) : getD (setKey s k v) k2 d = getD s k2 d := by
  simp [getD, lookupS_setKey_ne s k k2 v h]

theorem mem_setUnion (x : String) (a b : List String) :
    x ∈ setUnion a b ↔ x ∈ a ∨ x ∈ b := by
  simp [setUnion, List.mem_dedup]

theorem mem_setDifference (x : String) (a b : List String) :
    x ∈ setDifference a b ↔ x ∈ a ∧ x ∉ b := by
  simp [setDifference, List.mem_filter]

theorem walkSearch_eq_none (pe : String → Bool) (name : String)
    (h : ∀ q, pe q = false) :
    ∀ fuel dir, walkSearch pe name fuel dir = none := by
  intro fuel
  induction fuel with
  | zero => intro dir; rfl
  | succ n ih =>
      intro dir
      simp only [walkSearch, h]
      split
      · rfl
      · simp only [Bool.false_eq_true, if_false]
        split
        · rfl
        · exact ih _

theorem findFallback_eq_none (pe : String → Bool) (home : String)
    (h : ∀ q, pe q = false) :
    ∀ fbs, findFallback pe home fbs = none := by
  intro fbs
  induction fbs with
  | nil => rfl
  | cons fb rest ih => simp [findFallback, h, ih]

theorem walkSearch_some_bound (pe : String → Bool) (name : String) :
    ∀ fuel dir p, walkSearch pe name fuel dir = some p →
      ∃ k, k < fuel ∧ p = posixJoin (parentIter k dir) name ∧ pe p = true := by
  intro fuel
  induction fuel with
  | zero => intro dir p h; exact absurd h (by simp [walkSearch])
  | succ n ih =>
      intro dir p h
      simp only [walkSearch] at h
      by_cases hdir : dir = ""
      · simp [hdir] at h
      · simp only [hdir, if_false] at h
        by_cases hpe : pe (posixJoin dir name) = true
        · simp only [hpe, if_true] at h
          have hp : posixJoin dir name = p := Option.some_inj.mp h
          exact ⟨0, Nat.succ_pos n, by simpa [parentIter] using hp.symm,
            by rw [← hp]; exact hpe⟩
        · simp only [hpe, if_false, Bool.false_eq_true] at h
          by_cases hsame : dir = parentDir dir
          · rw [if_pos hsame] at h
            simp at h
          · simp only [hsame, if_false] at h
            obtain ⟨k, hk, hp, hpe2⟩ := ih (parentDir dir) p h
            exact ⟨k + 1, Nat.succ_lt_succ hk, by simpa [parentIter] using hp, hpe2⟩

theorem findFallback_some (pe : String → Bool) (home : String) :
    ∀ fbs q, findFallback pe home fbs = some q →
      ∃ fb, fb ∈ fbs ∧ q = expanduser home fb ∧ pe q = true := by
  intro fbs
  induction fbs with
  | nil => intro q h; exact absurd h (by simp [findFallback])
  | cons fb rest ih =>
      intro q h
      simp only [findFallback] at h
      by_cases hpe : pe (expanduser home fb) = true
      · simp only [hpe, if_true] at h
        exact ⟨fb, List.mem_cons_self fb rest, (Option.some_inj.mp h).symm,
          by rw [← Option.some_inj.mp h]; exact hpe⟩
      · simp only [hpe, Bool.false_eq_true, if_false] at h
        obtain ⟨fb2, hmem, hq, hpe2⟩ := ih q h
        exact ⟨fb2, List.mem_cons_of_mem fb hmem, hq, hpe2⟩

/-! ## Claim theorems -/

/-- C9: constructing the Config record with any py_version value other
than the literal string "auto" — including its declared default "3" —
raises an unbound-local error in post-initialization, because the local
normalized-version variable is assigned only inside the "auto" branch
yet read unconditionally afterwards; hence no Config instance with a
non-"auto" selector can ever be created. -/
theorem c9_post_init_unbound (interp pyVersionField : String)
    (knownStandardLibrary : List String) (h : pyVersionField ≠ "auto") :
    configPostInit interp pyVersionField knownStandardLibrary =
      Except.error PyErr.unboundLocalError := by
  simp [configPostInit, h]

/-- Witness for C9 at the declared default selector "3". -/
theorem c9_witness :
    configPostInit "38" "3" [] = Except.error PyErr.unboundLocalError :=
  c9_post_init_unbound "38" "3" [] (by decide)

/-- C5 counterexample: with safety excludes enabled, empty skip and
skip-glob lists, file name "a.py" and directory "/proj/.git", the skip
predicate returns false when /proj/.git/a.py exists on disk — the
safety denylist is only ever matched against the segment built from the
file name ("/a.py/"), which it does not match. -/
theorem c5_counterexample :
    fileShouldBeSkipped (fun _ => true) (fun _ _ => false) "/" "a.py"
      ⟨true, [], []⟩ "/proj/.git" = false ∧
    safetySearch "/a.py/" = false := by
  constructor
  · rfl
  · rfl

/-- C5 amended: with safety excludes enabled and empty skip and
skip-glob lists, the skip predicate on file name "a.py" with directory
"/proj/.git" ignores the ".git" path component entirely (the safety
segment is built from the file name only) and returns true exactly when
/proj/.git/a.py is not an existing file, directory or symlink. -/
theorem c5_amended (fsEntry : String → Bool) (fnmatchP : String → String → Bool)
    (cwd : String) :
    fileShouldBeSkipped fsEntry fnmatchP cwd "a.py" ⟨true, [], []⟩ "/proj/.git" =
      !(fsEntry "/proj/.git/a.py") := by
  have h1 : fileShouldBeSkipped fsEntry fnmatchP cwd "a.py" ⟨true, [], []⟩ "/proj/.git" =
      (if ¬ fsEntry "/proj/.git/a.py" then true else false) := rfl
  rw [h1]
  cases h : fsEntry "/proj/.git/a.py" <;> simp [h]

/-- The computation skeleton of the force_grid_wrap special case of the
merge loop: integer coercion first, the ValueError fallback mapping
"false" to the default-table value and anything else to 2. -/
theorem mergeConfigEntry_fgw (cwd : String) (settings : Settings) (v : Value) :
    mergeConfigEntry cwd settings "force_grid_wrap" v =
      match pyIntOf v with
      | Except.ok n => Except.ok (setKey settings "force_grid_wrap" (Value.vint n))
      | Except.error PyErr.valueError =>
          match v with
          | Value.vstr s =>
              Except.ok (setKey settings "force_grid_wrap"
                (if pyStrip (pyToLower s) = "false" then getD defaultTable "force_grid_wrap" Value.vnone
                 else Value.vint 2))
          | _ => Except.error PyErr.attributeError
      | Except.error e => Except.error e := rfl

/-- C7: merging the key force_grid_wrap first attempts integer coercion
of the raw value; on success the integer is stored; on failure the raw
value lower-cased and stripped equal to "false" stores the Default
Table's value for force_grid_wrap, and every other non-integer raw
value stores the fixed value 2. -/
theorem c7_force_grid_wrap (cwd : String) (settings : Settings) (s : String) :
    (∀ n, pyIntOfString s = some n →
      mergeConfigEntry cwd settings "force_grid_wrap" (Value.vstr s) =
        Except.ok (setKey settings "force_grid_wrap" (Value.vint n))) ∧
    (pyIntOfString s = none → pyStrip (pyToLower s) = "false" →
      mergeConfigEntry cwd settings "force_grid_wrap" (Value.vstr s) =
        Except.ok (setKey settings "force_grid_wrap"
          (getD defaultTable "force_grid_wrap" Value.vnone))) ∧
    (pyIntOfString s = none → pyStrip (pyToLower s) ≠ "false" →
      mergeConfigEntry cwd settings "force_grid_wrap" (Value.vstr s) =
        Except.ok (setKey settings "force_grid_wrap" (Value.vint 2))) := by
  refine ⟨?_, ?_, ?_⟩
  · intro n h
    rw [mergeConfigEntry_fgw]
    simp only [pyIntOf, h]
  · intro h hf
    rw [mergeConfigEntry_fgw]
    simp only [pyIntOf, h, hf, if_true]
  · intro h hf
    rw [mergeConfigEntry_fgw]
    simp only [pyIntOf, h, hf, if_false]

/-- C10 counterexample: the key "known_mykey" is absent from the
Default Table, so its declared type resolves to string; yet merging the
raw value "title" does not store the str attribute object — the
`known_` branch stores the absolutized parsed list instead. -/
theorem c10_counterexample :
    mergeConfigEntry "/proj" defaultTable "known_mykey" (Value.vstr "title") =
      Except.ok (setKey defaultTable "known_mykey" (Value.vlist ["title"])) ∧
    lookupS defaultTable "known_mykey" = none ∧
    Value.vlist ["title"] ≠ Value.vstrAttr "title" :=
  ⟨rfl, rfl, by decide⟩

/-- C10 amended: for every setting whose declared type resolves to
string and whose key does not carry the `known_` marker, merging a raw
value that names an attribute of the str type stores that attribute
object, and any other raw value is stored as the string itself (keys
absent from the Default Table do default to the string converter, but
`known_`-marked ones take the path-absolutization branch instead). -/
theorem c10_amended (cwd key : String) (settings : Settings) (s : String)
    (hconv : strToTypeConverter (pyToLower (pyReplace key "not_" "")) = TypeTag.strT)
    (hknown : pyStartsWith key "known_" = false) :
    mergeConfigEntry cwd settings key (Value.vstr s) =
      Except.ok (setKey settings (pyToLower (pyReplace key "not_" ""))
        (if strAttributeNames.contains s then Value.vstrAttr s else Value.vstr s)) ∧
    (∀ k2, lookupS defaultTable k2 = none → strToTypeConverter k2 = TypeTag.strT) := by
  constructor
  · have hne : key ≠ "force_grid_wrap" := by
      intro hk
      rw [hk] at hconv
      exact absurd hconv (by decide)
    simp only [mergeConfigEntry, hconv, hknown, hne, mergeOther, pyStr]
    simp
  · intro k2 h
    simp [strToTypeConverter, h]

/-- Witness for C10 at the string-typed key import_heading_future and
the str attribute name "title". -/
theorem c10_witness :
    mergeConfigEntry "/x" defaultTable "import_heading_future" (Value.vstr "title") =
      Except.ok (setKey defaultTable "import_heading_future" (Value.vstrAttr "title")) := by
  have h := (c10_amended "/x" "import_heading_future" defaultTable "title"
    (by decide) (by decide)).1
  exact h

/-- C1 counterexample: for the list-typed setting known_first_party
(whose key carries no `not_` marker), merging the raw value "mypkg/"
from a config file in /proj does not store the union of the existing
value and the parsed list ["mypkg/"]: the stored list contains the
absolutized entry "/proj/mypkg/" and not the parsed element. -/
theorem c1_counterexample :
    mergeConfigEntry "/proj" defaultTable "known_first_party" (Value.vstr "mypkg/") =
      Except.ok (setKey defaultTable "known_first_party" (Value.vlist ["/proj/mypkg/"])) ∧
    asList (Value.vstr "mypkg/") = Except.ok ["mypkg/"] ∧
    "mypkg/" ∉ (["/proj/mypkg/"] : List String) :=
  ⟨rfl, rfl, by decide⟩

/-- C1 amended: when the access key is exactly `sections`, merging
replaces the accumulator's value wholesale with the parsed list in its
supplied order; for every other list-typed setting a non-`not_` key
yields the union of the existing value and the parsed list — except
that a `known_`-marked key first absolutizes the parsed list's
bare-directory entries against the config file's directory and unions
that list instead. -/
theorem c1_amended (cwd key : String) (settings : Settings) (value : Value)
    (xs existing : List String)
    (hlist : strToTypeConverter (pyToLower (pyReplace key "not_" "")) = TypeTag.listT ∨
      strToTypeConverter (pyToLower (pyReplace key "not_" "")) = TypeTag.tupleT)
    (hxs : asList value = Except.ok xs)
    (hnot : pyStartsWith key "not_" = false)
    (hex : pySetOf (getD settings (pyToLower (pyReplace key "not_" ""))
      (getD defaultTable (pyToLower (pyReplace key "not_" "")) Value.vnone)) = Except.ok existing) :
    (pyToLower (pyReplace key "not_" "") = "sections" →
      mergeConfigEntry cwd settings key value =
        Except.ok (setKey settings "sections" (Value.vtup xs))) ∧
    (pyToLower (pyReplace key "not_" "") ≠ "sections" → pyStartsWith key "known_" = false →
      mergeConfigEntry cwd settings key value =
        Except.ok (setKey settings (pyToLower (pyReplace key "not_" ""))
          (Value.vlist (setUnion existing xs))) ∧
      (∀ x, x ∈ setUnion existing xs ↔ x ∈ existing ∨ x ∈ xs)) ∧
    (pyToLower (pyReplace key "not_" "") ≠ "sections" → pyStartsWith key "known_" = true →
      mergeConfigEntry cwd settings key value =
        Except.ok (setKey settings (pyToLower (pyReplace key "not_" ""))
          (Value.vlist (setUnion existing (abspaths cwd xs)))) ∧
      (∀ x, x ∈ setUnion existing (abspaths cwd xs) ↔ x ∈ existing ∨ x ∈ abspaths cwd xs)) := by
  have hsc : strToTypeConverter "sections" = TypeTag.tupleT := by decide
  refine ⟨?_, ?_, ?_⟩
  · intro hsec
    simp only [mergeConfigEntry, hsec, hxs]
    rw [if_pos (Or.inr hsc)]
    rfl
  · intro hsec hknown
    refine ⟨?_, fun x => mem_setUnion x existing xs⟩
    simp only [mergeConfigEntry, hxs, hex, hnot, hknown]
    rw [if_pos hlist, if_neg hsec]
    rfl
  · intro hsec hknown
    refine ⟨?_, fun x => mem_setUnion x existing (abspaths cwd xs)⟩
    simp only [mergeConfigEntry, hxs, hex, hnot, hknown]
    rw [if_pos hlist, if_neg hsec]
    rfl

/-- Witness for C1 (amended) at the plain list key "skip". -/
theorem c1_witness :
    mergeConfigEntry "/w" defaultTable "skip" (Value.vstr "a,b") =
      Except.ok (setKey defaultTable "skip" (Value.vlist ["a", "b"])) := by
  have h := ((c1_amended "/w" "skip" defaultTable (Value.vstr "a,b") ["a", "b"] []
    (Or.inl rfl) rfl rfl rfl).2.1 (by decide) rfl).1
  exact h

/-- C2 counterexample: sections is list-typed, yet a config-file key
"not_sections" does not produce the set difference of the existing
sections and the parsed list — it replaces the value wholesale, keeping
exactly the named element and dropping every other existing one. -/
theorem c2_counterexample :
    mergeConfigEntry "/proj" defaultTable "not_sections" (Value.vstr "FUTURE") =
      Except.ok (setKey defaultTable "sections" (Value.vtup ["FUTURE"])) ∧
    getD (setKey defaultTable "sections" (Value.vtup ["FUTURE"])) "sections" Value.vnone =
      Value.vtup ["FUTURE"] ∧
    ("STDLIB" ∈ DEFAULT_SECTIONS ∧ "STDLIB" ∉ (["FUTURE"] : List String) ∧
      "FUTURE" ∈ (["FUTURE"] : List String)) :=
  ⟨rfl, rfl, by decide⟩

/-- C2 amended: for every list-typed setting other than `sections`, a
`not_`-marked override or config-file key yields exactly the set
difference of the existing value and the parsed list (order
irrelevant); a `not_sections` key is the exception — the config-file
merger replaces sections wholesale with the parsed list, and the
override applicator stores the value verbatim under the literal key
"not_sections". -/
theorem c2_amended (cwd key : String) (settings config : Settings) (value : Value)
    (xs existing curXs vals : List String) :
    ((pyToLower (pyReplace key "not_" "")) ≠ "sections" →
     (strToTypeConverter (pyToLower (pyReplace key "not_" "")) = TypeTag.listT ∨
       strToTypeConverter (pyToLower (pyReplace key "not_" "")) = TypeTag.tupleT) →
     pyStartsWith key "not_" = true →
     asList value = Except.ok xs →
     pySetOf (getD settings (pyToLower (pyReplace key "not_" ""))
       (getD defaultTable (pyToLower (pyReplace key "not_" "")) Value.vnone)) = Except.ok existing →
       mergeConfigEntry cwd settings key value =
         Except.ok (setKey settings (pyToLower (pyReplace key "not_" ""))
           (Value.vlist (setDifference existing xs))) ∧
       (∀ x, x ∈ setDifference existing xs ↔ x ∈ existing ∧ x ∉ xs)) ∧
    ((pyToLower (pyReplace key "not_" "")) ≠ "sections" →
     pyStartsWith key "not_" = true →
     lookupS config (pyToLower (pyReplace key "not_" "")) = some (Value.vlist curXs) →
     pyIterate value = Except.ok vals →
       applyOverride config key value =
         Except.ok (setKey config (pyToLower (pyReplace key "not_" ""))
           (Value.vlist (setDifference curXs.dedup vals))) ∧
       (∀ x, x ∈ setDifference curXs.dedup vals ↔ x ∈ curXs ∧ x ∉ vals)) ∧
    (key = "not_sections" →
       (asList value = Except.ok xs →
         mergeConfigEntry cwd settings key value =
           Except.ok (setKey settings "sections" (Value.vtup xs))) ∧
       applyOverride config key value = Except.ok (setKey config "not_sections" value)) := by
  refine ⟨?_, ?_, ?_⟩
  · intro hsec hlist hnot hxs hex
    refine ⟨?_, ?_⟩
    · simp only [mergeConfigEntry, hxs, hex, hnot]
      rw [if_pos hlist, if_neg hsec]
      rfl
    · intro x
      rw [mem_setDifference]
  · intro hsec hnot hcur hvals
    have hgd : getD config (pyToLower (pyReplace key "not_" "")) Value.vnone =
        Value.vlist curXs := by
      simp [getD, hcur]
    refine ⟨?_, ?_⟩
    · simp only [applyOverride, hgd, hnot, hvals]
      rw [if_pos ⟨hsec, rfl⟩]
      simp only [getItemE, hcur]
      rfl
    · intro x
      rw [mem_setDifference]
      simp [List.mem_dedup]
  · intro hkey
    subst hkey
    have ha : pyToLower (pyReplace "not_sections" "not_" "") = "sections" := by decide
    have hsc : strToTypeConverter "sections" = TypeTag.tupleT := by decide
    refine ⟨?_, ?_⟩
    · intro hxs
      simp only [mergeConfigEntry, ha, hxs]
      rw [if_pos (Or.inr hsc)]
      rfl
    · simp only [applyOverride, ha]
      rw [if_neg (fun h => h.1 rfl)]

theorem except_bind_ok {α β : Type} (a : α) (f : α → Except PyErr β) :
    ((Except.ok a : Except PyErr α) >>= f) = f a := rfl

theorem except_bind_error {α β : Type} (e : PyErr) (f : α → Except PyErr β) :
    ((Except.error e : Except PyErr α) >>= f) = Except.error e := rfl

theorem lookupS_of_getItemE (s : Settings) (k : String) (v : Value)
    (h : getItemE s k = Except.ok v) : lookupS s k = some v := by
  unfold getItemE at h
  cases hl : lookupS s k with
  | none => rw [hl] at h; cases h
  | some w => rw [hl] at h; cases h; rfl

/-- The indent and comment-prefix post-processing of prepare_config
touches only the "indent" and "comment_prefix" keys. -/
theorem post_preserves (c r : Settings) (k : String) (dflt : Value)
    (h : (indentPost c >>= fun c3 => commentPost c3) = Except.ok r)
    (hk1 : k ≠ "indent") (hk2 : k ≠ "comment_prefix") :
    getD r k dflt = getD c k dflt := by
  unfold indentPost at h
  cases hiv : getItemE c "indent" with
  | error e =>
      rw [hiv, except_bind_error, except_bind_error] at h
      cases h
  | ok iv =>
      rw [hiv, except_bind_ok, except_bind_ok] at h
      unfold commentPost at h
      cases hcp : getItemE (setKey c "indent"
          (Value.vstr (if pyStr iv ≠ "" ∧ (pyStr iv).toList.all Char.isDigit then
            strRepeat " " (Int.ofNat ((pyStr iv).toList.foldl (fun acc ch => acc * 10 + digitVal ch) 0))
          else if pyToLower (pyStripChars ['"'] (pyStripChars [squoteChar] (pyStr iv))) = "tab" then "\t"
          else pyStripChars ['"'] (pyStripChars [squoteChar] (pyStr iv))))) "comment_prefix" with
      | error e =>
          rw [hcp, except_bind_error] at h
          cases h
      | ok cp =>
          rw [hcp, except_bind_ok] at h
          cases cp with
          | vstr s =>
              simp only [] at h
              cases h
              rw [getD_setKey_ne _ _ _ _ _ hk2, getD_setKey_ne _ _ _ _ _ hk1]
          | vint n => cases h
          | vbool b => cases h
          | vnone => cases h
          | vinf => cases h
          | vlist xs => cases h
          | vtup xs => cases h
          | vstrAttr a => cases h
          | vwrap m => cases h

/-- C4: whenever the final configuration produced by the override
applicator has force_alphabetical_sort true, the four settings
force_alphabetical_sort_within_sections=true, no_sections=true,
lines_between_types=1 and from_first=true hold in it — the expansion is
written after the per-key override loop, so an explicit override of any
of those four keys in the same call is unconditionally overwritten. -/
theorem c4_expansion (config : Settings) (overrides : List (String × Value)) (r : Settings)
    (h : prepareConfigWith config overrides = Except.ok r)
    (hf : getD r "force_alphabetical_sort" Value.vnone = Value.vbool true) :
    getD r "force_alphabetical_sort_within_sections" Value.vnone = Value.vbool true ∧
    getD r "no_sections" Value.vnone = Value.vbool true ∧
    getD r "lines_between_types" Value.vnone = Value.vint 1 ∧
    getD r "from_first" Value.vnone = Value.vbool true := by
  unfold prepareConfigWith at h
  cases hc1 : overrides.foldlM (fun c kv => applyOverride c kv.1 kv.2) config with
  | error e => rw [hc1, except_bind_error] at h; cases h
  | ok c1 =>
      rw [hc1, except_bind_ok] at h
      cases hfav : getItemE c1 "force_alphabetical_sort" with
      | error e => rw [hfav, except_bind_error] at h; cases h
      | ok fav =>
          rw [hfav, except_bind_ok] at h
          by_cases htr : pyTruthy fav = true
          · rw [if_pos htr] at h
            have h1 := post_preserves _ r "force_alphabetical_sort_within_sections"
              Value.vnone h (by decide) (by decide)
            have h2 := post_preserves _ r "no_sections" Value.vnone h (by decide) (by decide)
            have h3 := post_preserves _ r "lines_between_types" Value.vnone h (by decide) (by decide)
            have h4 := post_preserves _ r "from_first" Value.vnone h (by decide) (by decide)
            rw [h1, h2, h3, h4]
            refine ⟨?_, ?_, ?_, ?_⟩
            · rw [getD_setKey_ne _ _ _ _ _ (by decide), getD_setKey_ne _ _ _ _ _ (by decide),
                getD_setKey_ne _ _ _ _ _ (by decide), getD_setKey_self]
            · rw [getD_setKey_ne _ _ _ _ _ (by decide), getD_setKey_ne _ _ _ _ _ (by decide),
                getD_setKey_self]
            · rw [getD_setKey_ne _ _ _ _ _ (by decide), getD_setKey_self]
            · rw [getD_setKey_self]
          · rw [if_neg htr] at h
            have h0 := post_preserves _ r "force_alphabetical_sort" Value.vnone h
              (by decide) (by decide)
            rw [hf] at h0
            have hl := lookupS_of_getItemE c1 "force_alphabetical_sort" fav hfav
            have hfv : fav = Value.vbool true := by
              rw [getD, hl] at h0
              exact h0.symm
            rw [hfv] at htr
            exact absurd rfl htr

/-- Witness for C4: an explicit from_first=false override in the same
call as force_alphabetical_sort=true still ends with from_first=true. -/
theorem c4_witness :
    getD [("indent", Value.vstr "    "), ("comment_prefix", Value.vstr "  #"),
        ("force_alphabetical_sort", Value.vbool true), ("from_first", Value.vbool true),
        ("force_alphabetical_sort_within_sections", Value.vbool true),
        ("no_sections", Value.vbool true), ("lines_between_types", Value.vint 1)]
      "force_alphabetical_sort_within_sections" Value.vnone = Value.vbool true ∧
    getD [("indent", Value.vstr "    "), ("comment_prefix", Value.vstr "  #"),
        ("force_alphabetical_sort", Value.vbool true), ("from_first", Value.vbool true),
        ("force_alphabetical_sort_within_sections", Value.vbool true),
        ("no_sections", Value.vbool true), ("lines_between_types", Value.vint 1)]
      "no_sections" Value.vnone = Value.vbool true ∧
    getD [("indent", Value.vstr "    "), ("comment_prefix", Value.vstr "  #"),
        ("force_alphabetical_sort", Value.vbool true), ("from_first", Value.vbool true),
        ("force_alphabetical_sort_within_sections", Value.vbool true),
        ("no_sections", Value.vbool true), ("lines_between_types", Value.vint 1)]
      "lines_between_types" Value.vnone = Value.vint 1 ∧
    getD [("indent", Value.vstr "    "), ("comment_prefix", Value.vstr "  #"),
        ("force_alphabetical_sort", Value.vbool true), ("from_first", Value.vbool true),
        ("force_alphabetical_sort_within_sections", Value.vbool true),
        ("no_sections", Value.vbool true), ("lines_between_types", Value.vint 1)]
      "from_first" Value.vnone = Value.vbool true :=
  c4_expansion [("indent", Value.vstr "    "), ("comment_prefix", Value.vstr "  #")]
    [("force_alphabetical_sort", Value.vbool true), ("from_first", Value.vbool false)]
    [("indent", Value.vstr "    "), ("comment_prefix", Value.vstr "  #"),
      ("force_alphabetical_sort", Value.vbool true), ("from_first", Value.vbool true),
      ("force_alphabetical_sort_within_sections", Value.vbool true),
      ("no_sections", Value.vbool true), ("lines_between_types", Value.vint 1)]
    rfl rfl

/-- C3: version resolution maps the selector "auto" to the running
interpreter's own major.minor version, and every selector that after
normalization is not in the supported set makes resolution fail with
the unsupported-version error (the source's ValueError) before any file
merging begins — from_path propagates the error whatever the filesystem
and format readers contain. -/
theorem c3_version_resolution (interp s : String) :
    ((interp ≠ "" ∧ interp ≠ "auto") →
      getDefault interp (some (Value.vstr "auto")) =
        getDefault interp (some (Value.vstr interp))) ∧
    (VALID_PY_TARGETS.contains (if (if s = "" then "3" else s) = "auto" then interp
        else if s = "" then "3" else s) = false →
      resolvePyVersion interp (some (Value.vstr s)) = Except.error PyErr.valueError ∧
      (∀ pe rc home appd path,
        fromPath pe rc home appd interp path (some (Value.vstr s)) =
          Except.error PyErr.valueError)) := by
  constructor
  · rintro ⟨h1, h2⟩
    simp [getDefault, resolvePyVersion, pyTruthy, h1, h2]
  · intro hcon
    have hres : resolvePyVersion interp (some (Value.vstr s)) = Except.error PyErr.valueError := by
      by_cases hs : s = ""
      · subst hs
        rw [if_pos rfl] at hcon
        rw [if_neg (by decide : ¬ (("3" : String) = "auto"))] at hcon
        exact absurd hcon (by decide)
      · simp only [if_neg hs] at hcon
        by_cases hauto : s = "auto"
        · subst hauto
          simp only [if_pos rfl] at hcon
          have hnm : interp ∉ VALID_PY_TARGETS := by simpa using hcon
          simp [resolvePyVersion, pyTruthy, hnm]
        · simp only [if_neg hauto] at hcon
          have hnm : s ∉ VALID_PY_TARGETS := by simpa using hcon
          simp [resolvePyVersion, pyTruthy, hs, hauto, hnm]
    refine ⟨hres, ?_⟩
    intro pe rc home appd path
    have hgd : getDefault interp (some (Value.vstr s)) = Except.error PyErr.valueError := by
      unfold getDefault
      rw [hres, except_bind_error]
    unfold fromPath
    rw [hgd, except_bind_error]


/-- C6: the config-file locator remembers the first existing fallback
path (in order, user-home expanded) as candidate; a file found during
the upward walk replaces the fallback candidate; the walk inspects at
most 25 directories (stopping early at a directory that is its own
parent, which is folded into the walk function); and when nothing is
found at all the accumulator is returned unchanged without raising. -/
theorem c6_locator (pe : String → Bool)
    (rc : String → List String → List (String × Value))
    (home path name : String) (fallbacks sections : List String) (settings : Settings) :
    (∀ p, walkSearch pe name MAX_CONFIG_SEARCH_DEPTH path = some p →
      locate pe home path name fallbacks = some p ∧
      ∃ k, k < MAX_CONFIG_SEARCH_DEPTH ∧ p = posixJoin (parentIter k path) name ∧
        pe p = true) ∧
    (walkSearch pe name MAX_CONFIG_SEARCH_DEPTH path = none →
      locate pe home path name fallbacks = findFallback pe home fallbacks) ∧
    (∀ q, findFallback pe home fallbacks = some q →
      ∃ fb, fb ∈ fallbacks ∧ q = expanduser home fb ∧ pe q = true) ∧
    (locate pe home path name fallbacks = none →
      updateSettingsWithConfig pe rc home path name fallbacks sections settings =
        Except.ok settings) := by
  refine ⟨?_, ?_, ?_, ?_⟩
  · intro p h
    exact ⟨by simp [locate, h], walkSearch_some_bound pe name MAX_CONFIG_SEARCH_DEPTH path p h⟩
  · intro h
    simp [locate, h]
  · intro q h
    exact findFallback_some pe home fallbacks q h
  · intro h
    simp [updateSettingsWithConfig, h]

/-- C8: when no config file of any kind is found anywhere (no walk hit
and no fallback file), from_path returns exactly the Default Table's
values with known_standard_library adjusted for the resolved version;
and a second call with the same (path, py_version) key is served from
the cache, returning the same result and leaving the cache unchanged. -/
theorem c8_defaults_and_cache (pe : String → Bool)
    (rc : String → List String → List (String × Value))
    (home : String) (appd : Option String) (interp path : String) (pv : Option Value) :
    ((∀ q, pe q = false) →
      fromPath pe rc home appd interp path pv = getDefault interp pv) ∧
    (∀ v, getDefault interp pv = Except.ok v →
      ∃ pyv, resolvePyVersion interp pv = Except.ok pyv ∧
        v = setKey defaultTable "known_standard_library" (Value.vlist (stdlibOf pyv))) ∧
    (∀ v c1, fromPathCached pe rc home appd interp [] path pv = (Except.ok v, c1) →
      fromPathCached pe rc home appd interp c1 path pv = (Except.ok v, c1) ∧
      cacheLookup c1 (path, pv) = some v) := by
  refine ⟨?_, ?_, ?_⟩
  · intro hq
    have hloc : ∀ nm fbs, locate pe home path nm fbs = none := by
      intro nm fbs
      unfold locate
      rw [walkSearch_eq_none pe nm hq MAX_CONFIG_SEARCH_DEPTH path,
        findFallback_eq_none pe home hq fbs]
    have hupd : ∀ nm fbs secs st,
        updateSettingsWithConfig pe rc home path nm fbs secs st = Except.ok st := by
      intro nm fbs secs st
      simp [updateSettingsWithConfig, hloc]
    unfold fromPath
    cases hgd : getDefault interp pv with
    | error e => rw [except_bind_error]
    | ok d =>
        rw [except_bind_ok, hupd, except_bind_ok, hupd, except_bind_ok, hupd,
          except_bind_ok, hupd, except_bind_ok, hupd, except_bind_ok]
  · intro v hv
    unfold getDefault at hv
    cases hrv : resolvePyVersion interp pv with
    | error e => rw [hrv, except_bind_error] at hv; cases hv
    | ok pyv =>
        rw [hrv, except_bind_ok] at hv
        cases hv
        exact ⟨pyv, rfl, rfl⟩
  · intro v c1 h
    unfold fromPathCached at h
    cases hfp : fromPath pe rc home appd interp path pv with
    | ok w =>
        rw [hfp] at h
        simp only [cacheLookup] at h
        injection h with h1 h2
        injection h1 with h3
        subst h3
        subst h2
        constructor
        · unfold fromPathCached
          simp [cacheLookup]
        · simp [cacheLookup]
    | error e =>
        rw [hfp] at h
        simp only [cacheLookup] at h
        cases h

end Isort
